import Mathlib

/-
Shallow embedding of the swap utility functions of
src/src/features/transactions/swap/utils.ts.

JavaScript numbers that feed exact arithmetic paths (slippage tolerance)
are embedded as rationals; big-integer quotients (JSBI / ethers BigNumber
values) are embedded as naturals; optional / nullable values as Option;
a thrown exception as an error value.  External collaborators that the
file calls (sdk-core Percent, router-sdk slippage maths, the repository's
currency-id and address helpers) are modelled from the specification's
description of them, as noted on each definition.
-/

namespace SwapUtils

/-- Lower-casing of a string, character by character.  Models the
JavaScript toLowerCase normalisation used by the identifier and address
comparison helpers. -/
def strLower (s : String) : String := String.mk (s.data.map Char.toLower)

/-- JavaScript Math.round: nearest integer, halves rounded towards
positive infinity. -/
def jsRound (x : ℚ) : ℤ := ⌊x + 1/2⌋

/-- Modelled from the spec: the sdk-core Percent value, kept as an exact
numerator / denominator pair. -/
structure Percent where
  num : ℤ
  den : ℕ
deriving DecidableEq

/-- Embeds slippageToleranceToPercent of utils.ts: rounds slippage * 100
to the nearest basis point and forms Percent(basisPoints, 10000). -/
def slippageToleranceToPercent (slippage : ℚ) : Percent :=
  { num := jsRound (slippage * 100), den := 10000 }

/-- The sdk-core trade type enumeration. -/
inductive TradeType where
  | EXACT_INPUT
  | EXACT_OUTPUT
deriving DecidableEq

/-- The wrapSaga WrapType enumeration. -/
inductive WrapType where
  | NotApplicable
  | Wrap
  | Unwrap
deriving DecidableEq

/-- Modelled from the spec: a currency value (token or native asset).
address is the token contract address (unused for the native asset);
wrappedAddress is the address of the currency after wrapping to its
ERC-20 representation (a token is its own wrapped form). -/
structure Currency where
  chainId : ℕ
  isNative : Bool
  address : String
  wrappedAddress : String
deriving DecidableEq

/-- Modelled from the spec: the sentinel address the repository's
currency-id helper uses for a chain's native asset. -/
def NATIVE_ADDRESS : String := "0xEeeeeEeeeEeEeeEeEeEeeEEEeeeeEeeeeeeeEEeE"

/-- Modelled from the spec: the address component of a currency's
identifier (the native sentinel for the native asset). -/
def currencyAddress (c : Currency) : String :=
  if c.isNative then NATIVE_ADDRESS else c.address

/-- Modelled from the spec: the repository's currency identifier,
chain id and address joined by a dash. -/
def currencyId (c : Currency) : String :=
  Nat.repr c.chainId ++ "-" ++ currencyAddress c

/-- Modelled from the spec: case-insensitive equality of currency
identifiers. -/
def areCurrencyIdsEqual (id1 id2 : String) : Bool :=
  strLower id1 == strLower id2

/-- Embeds getWrapType of utils.ts.  The canonical wrapped-native token
map WRAPPED_NATIVE_CURRENCY is passed as the parameter W (modelled from
the spec: every chain has a canonical wrapped-native token). -/
def getWrapType (W : ℕ → Currency)
    (inputCurrency outputCurrency : Option Currency) : WrapType :=
  match inputCurrency, outputCurrency with
  | some i, some o =>
    if i.chainId = o.chainId then
      let weth := W i.chainId
      if i.isNative && areCurrencyIdsEqual (currencyId o) (currencyId weth) then
        WrapType.Wrap
      else if o.isNative && areCurrencyIdsEqual (currencyId i) (currencyId weth) then
        WrapType.Unwrap
      else
        WrapType.NotApplicable
    else WrapType.NotApplicable
  | _, _ => WrapType.NotApplicable

/-- An amount of a currency; quotient is the underlying big integer. -/
structure CurrencyAmount where
  currency : Currency
  quotient : ℕ
deriving DecidableEq

/-- Calldata and native value of a prepared swap call. -/
structure MethodParameters where
  calldata : String
  value : String
deriving DecidableEq

/-- The part of a routing quote the utilities read. -/
structure TradeQuote where
  methodParameters : Option MethodParameters
deriving DecidableEq

/-- An execution price: 1 unit of the base currency is worth value units
of the quote currency. -/
structure Price where
  baseSymbol : String
  quoteSymbol : String
  value : ℚ
deriving DecidableEq

/-- Price inversion: swaps base and quote and reciprocates the value. -/
def Price.invert (p : Price) : Price :=
  { baseSymbol := p.quoteSymbol, quoteSymbol := p.baseSymbol, value := p.value⁻¹ }

/-- Modelled from the spec: the trade value of
src/features/transactions/swap/useTrade (a router-sdk trade), restricted
to the fields the utilities read. -/
structure Trade where
  tradeType : TradeType
  inputAmount : CurrencyAmount
  outputAmount : CurrencyAmount
  slippageTolerance : ℚ
  quote : Option TradeQuote
  executionPrice : Price
deriving DecidableEq

/-- Modelled from the spec: the router SDK's minimumAmountOut.  For an
exact-output trade the output amount is returned unchanged; otherwise the
output quotient is divided by (1 + tolerance) with the quotient floored.
The SDK throws its SLIPPAGE_TOLERANCE invariant on a negative tolerance,
modelled as none. -/
def Trade.minimumAmountOut (t : Trade) (p : Percent) : Option ℕ :=
  if p.num < 0 then none
  else if t.tradeType = TradeType.EXACT_OUTPUT then some t.outputAmount.quotient
  else some (t.outputAmount.quotient * p.den / (p.den + p.num.toNat))

/-- Modelled from the spec: the router SDK's maximumAmountIn.  For an
exact-input trade the input amount is returned unchanged; otherwise the
input quotient is multiplied by (1 + tolerance) with the quotient
floored.  A negative tolerance throws, modelled as none. -/
def Trade.maximumAmountIn (t : Trade) (p : Percent) : Option ℕ :=
  if p.num < 0 then none
  else if t.tradeType = TradeType.EXACT_INPUT then some t.inputAmount.quotient
  else some (t.inputAmount.quotient * (p.den + p.num.toNat) / p.den)

/-- The transaction type tag of the produced records. -/
inductive TransactionType where
  | Swap
deriving DecidableEq

/-- The exact-input swap transaction record of utils.ts. -/
structure ExactInputSwapTransactionInfo where
  type : TransactionType
  inputCurrencyId : String
  outputCurrencyId : String
  tradeType : TradeType
  inputCurrencyAmountRaw : String
  expectedOutputCurrencyAmountRaw : String
  minimumOutputCurrencyAmountRaw : String
deriving DecidableEq

/-- The exact-output swap transaction record of utils.ts. -/
structure ExactOutputSwapTransactionInfo where
  type : TransactionType
  inputCurrencyId : String
  outputCurrencyId : String
  tradeType : TradeType
  outputCurrencyAmountRaw : String
  expectedInputCurrencyAmountRaw : String
  maximumInputCurrencyAmountRaw : String
deriving DecidableEq

/-- The union of the two record shapes tradeToTransactionInfo returns. -/
inductive SwapTransactionInfo where
  | exactInput (info : ExactInputSwapTransactionInfo)
  | exactOutput (info : ExactOutputSwapTransactionInfo)
deriving DecidableEq

/-- Embeds tradeToTransactionInfo of utils.ts.  none models the
exception the slippage arithmetic raises on a negative tolerance. -/
def tradeToTransactionInfo (trade : Trade) : Option SwapTransactionInfo :=
  let slippageTolerance := slippageToleranceToPercent trade.slippageTolerance
  if trade.tradeType = TradeType.EXACT_INPUT then
    (trade.minimumAmountOut slippageTolerance).map fun minOut =>
      SwapTransactionInfo.exactInput
        { type := TransactionType.Swap
          inputCurrencyId := currencyId trade.inputAmount.currency
          outputCurrencyId := currencyId trade.outputAmount.currency
          tradeType := TradeType.EXACT_INPUT
          inputCurrencyAmountRaw := Nat.repr trade.inputAmount.quotient
          expectedOutputCurrencyAmountRaw := Nat.repr trade.outputAmount.quotient
          minimumOutputCurrencyAmountRaw := Nat.repr minOut }
  else
    (trade.maximumAmountIn slippageTolerance).map fun maxIn =>
      SwapTransactionInfo.exactOutput
        { type := TransactionType.Swap
          inputCurrencyId := currencyId trade.inputAmount.currency
          outputCurrencyId := currencyId trade.outputAmount.currency
          tradeType := TradeType.EXACT_OUTPUT
          outputCurrencyAmountRaw := Nat.repr trade.outputAmount.quotient
          expectedInputCurrencyAmountRaw := Nat.repr trade.inputAmount.quotient
          maximumInputCurrencyAmountRaw := Nat.repr maxIn }

/-- The optional-chaining access oldTrade?.quote?.methodParameters?.calldata. -/
def tradeCalldata (t : Option Trade) : Option String :=
  Option.map MethodParameters.calldata
    (Option.bind (Option.bind t Trade.quote) TradeQuote.methodParameters)

/-- Embeds requireAcceptNewTrade of utils.ts. -/
def requireAcceptNewTrade (oldTrade newTrade : Option Trade) : Bool :=
  tradeCalldata oldTrade != tradeCalldata newTrade

/-- Modelled from the spec: the fixed currency-amount formatting policy
formatPrice(price, NumberType.SwapPrice); it depends only on the numeric
value of the price. -/
def formatPrice (p : Price) : String := toString p.value

/-- Embeds getRateToDisplay of utils.ts, local names kept. -/
def getRateToDisplay (trade : Trade) (showInverseRate : Bool) : String :=
  let price := if showInverseRate then trade.executionPrice.invert else trade.executionPrice
  let formattedPrice := formatPrice price
  let quoteCurrencySymbol := trade.executionPrice.quoteSymbol
  let baseCurrencySymbol := trade.executionPrice.baseSymbol
  let rate := "1 " ++ quoteCurrencySymbol ++ " = " ++ formattedPrice ++ " " ++ baseCurrencySymbol
  let inverseRate := "1 " ++ baseCurrencySymbol ++ " = " ++ formattedPrice ++ " " ++ quoteCurrencySymbol
  if showInverseRate then rate else inverseRate

/-- The canonical display of a price p: 1 base = value quote, with the
value rendered by the fixed formatting policy. -/
def rateString (p : Price) : String :=
  "1 " ++ p.baseSymbol ++ " = " ++ formatPrice p ++ " " ++ p.quoteSymbol

/-- JavaScript falsiness of an optional string: undefined and the empty
string are falsy. -/
def jsFalsyStr : Option String → Bool
  | none => true
  | some s => s == ""

/-- The JavaScript expression a or-else b over optional strings. -/
def jsOrStr (a b : Option String) : Option String :=
  if jsFalsyStr a then b else a

/-- Numeric value of a string of decimal digits. -/
def decDigitsVal (s : String) : ℕ :=
  s.data.foldl (fun acc c => 10 * acc + (c.toNat - 48)) 0

/-- Recognises a nonempty all-digit decimal string. -/
def isDecimalString (s : String) : Bool :=
  !s.data.isEmpty && s.data.all Char.isDigit

/-- Embeds sumGasFees of utils.ts.  The ethers BigNumber arithmetic is
modelled from the spec as exact arbitrary-precision decimal integer
arithmetic; an argument BigNumber.from cannot parse makes the real code
throw, modelled as the error result. -/
def sumGasFees (gasFee1 gasFee2 : Option String) : Except Unit (Option String) :=
  if jsFalsyStr gasFee1 || jsFalsyStr gasFee2 then
    Except.ok (jsOrStr gasFee1 gasFee2)
  else if isDecimalString (gasFee1.getD "") && isDecimalString (gasFee2.getD "") then
    Except.ok (some (Nat.repr (decDigitsVal (gasFee1.getD "") + decDigitsVal (gasFee2.getD ""))))
  else Except.error ()

/-- Modelled from the spec: case and format insensitive address
equality of the repository's areAddressesEqual helper. -/
def areAddressesEqual (a1 a2 : String) : Bool :=
  strLower a1 == strLower a2

/-- Embeds clearStaleTrades of utils.ts. -/
def clearStaleTrades (trade : Trade)
    (currencyIn currencyOut : Option Currency) : Option Trade :=
  let currencyInAddress := currencyIn.map Currency.wrappedAddress
  let currencyOutAddress := currencyOut.map Currency.wrappedAddress
  let inputsMatch :=
    !(jsFalsyStr currencyInAddress) &&
      areAddressesEqual (currencyInAddress.getD "")
        trade.inputAmount.currency.wrappedAddress
  let outputsMatch :=
    !(jsFalsyStr currencyOutAddress) &&
      areAddressesEqual (currencyOutAddress.getD "")
        trade.outputAmount.currency.wrappedAddress
  if inputsMatch && outputsMatch then some trade else none

/-- Modelled from the spec: a permit2 signature with its permit message,
the message kept opaque. -/
structure PermitSignatureInfo where
  signature : String
  permitMessage : String
deriving DecidableEq

/-- Modelled from the spec: a raw permit for the legacy router, kept
opaque. -/
structure PermitOptions where
  raw : String
deriving DecidableEq

/-- The options both router SDK calls share. -/
structure BaseSwapOptions where
  slippageTolerance : Percent
  recipient : String
deriving DecidableEq

/-- The permit payload passed to the universal router: the permit2
signature spread together with its permit message. -/
structure Permit2Permit where
  signature : String
  message : String
deriving DecidableEq

/-- Options of the universal-router SDK call. -/
structure UniversalRouterSwapOptions where
  base : BaseSwapOptions
  inputTokenPermit : Option Permit2Permit
deriving DecidableEq

/-- Options of the legacy router SDK call. -/
structure SwapOptions where
  base : BaseSwapOptions
  inputTokenPermit : Option PermitOptions
deriving DecidableEq

/-- The delegated router SDK call, with the trade and options passed to
it; the SDK internals stay a black box. -/
inductive RouterCall where
  | universal (trade : Trade) (options : UniversalRouterSwapOptions)
  | legacy (trade : Trade) (options : SwapOptions)
deriving DecidableEq

/-- The argument record of getSwapMethodParameters. -/
structure MethodParameterArgs where
  permit2Signature : Option PermitSignatureInfo
  permitInfo : Option PermitOptions
  trade : Trade
  address : String
  universalRouterEnabled : Bool
deriving DecidableEq

/-- Embeds getSwapMethodParameters of utils.ts, returning the delegated
SDK call instead of the calldata the black-box SDK would produce. -/
def getSwapMethodParameters (args : MethodParameterArgs) : RouterCall :=
  let slippageTolerancePercent := slippageToleranceToPercent args.trade.slippageTolerance
  let baseOptions : BaseSwapOptions :=
    { slippageTolerance := slippageTolerancePercent, recipient := args.address }
  if args.universalRouterEnabled || args.permit2Signature.isSome then
    let universalRouterSwapOptions : UniversalRouterSwapOptions :=
      match args.permit2Signature with
      | some p2 =>
        { base := baseOptions
          inputTokenPermit := some { signature := p2.signature, message := p2.permitMessage } }
      | none => { base := baseOptions, inputTokenPermit := none }
    RouterCall.universal args.trade universalRouterSwapOptions
  else
    let swapOptions : SwapOptions :=
      match args.permitInfo with
      | some pi => { base := baseOptions, inputTokenPermit := some pi }
      | none => { base := baseOptions, inputTokenPermit := none }
    RouterCall.legacy args.trade swapOptions

/-! Helper lemmas shared by the claim theorems. -/

theorem natDiv_den_le (q d k : ℕ) (hd : 0 < d) : q * d / (d + k) ≤ q := by
  have h1 : q * d / (d + k) ≤ q * (d + k) / (d + k) :=
    Nat.div_le_div_right (Nat.mul_le_mul_left q (Nat.le_add_right d k))
  have h2 : q * (d + k) / (d + k) = q := Nat.mul_div_cancel q (by omega)
  omega

theorem natLe_mul_den_div (q d k : ℕ) (hd : 0 < d) : q ≤ q * (d + k) / d := by
  have h1 : q * d / d ≤ q * (d + k) / d :=
    Nat.div_le_div_right (Nat.mul_le_mul_left q (Nat.le_add_right d k))
  have h2 : q * d / d = q := Nat.mul_div_cancel q hd
  omega

theorem decimalString_beq_empty_false (s : String)
    (h : isDecimalString s = true) : (s == "") = false := by
  unfold isDecimalString at h
  rw [Bool.and_eq_true] at h
  rw [beq_eq_false_iff_ne]
  intro he
  subst he
  simp at h

/-! Sample data used by the witness theorems. -/

/-- A sample ERC-20 token on chain 1. -/
def sampleTokenA : Currency :=
  { chainId := 1, isNative := false
    address := "0xAaAa000000000000000000000000000000000001"
    wrappedAddress := "0xAaAa000000000000000000000000000000000001" }

/-- Another sample ERC-20 token on chain 1. -/
def sampleTokenB : Currency :=
  { chainId := 1, isNative := false
    address := "0xBbBb000000000000000000000000000000000002"
    wrappedAddress := "0xBbBb000000000000000000000000000000000002" }

/-- The native asset of chain 1, wrapping to the sample WETH token. -/
def sampleNative : Currency :=
  { chainId := 1, isNative := true
    address := NATIVE_ADDRESS
    wrappedAddress := "0xC02aaA39b223FE8D0A0e5C4F27eAD9083C756Cc2" }

/-- The sample canonical wrapped-native token of chain 1. -/
def sampleWeth : Currency :=
  { chainId := 1, isNative := false
    address := "0xC02aaA39b223FE8D0A0e5C4F27eAD9083C756Cc2"
    wrappedAddress := "0xC02aaA39b223FE8D0A0e5C4F27eAD9083C756Cc2" }

/-- A sample wrapped-native map sending every chain to the sample WETH. -/
def sampleWethMap : ℕ → Currency := fun _ => sampleWeth

/-- A sample quote whose prepared calldata is 0xdead. -/
def sampleQuote : TradeQuote :=
  { methodParameters := some { calldata := "0xdead", value := "0" } }

/-- A sample execution price: 1 token A is worth 2 token B. -/
def samplePrice : Price :=
  { baseSymbol := "AAA", quoteSymbol := "BBB", value := 2 }

/-- A sample exact-input trade of 1000 token A for 2000 token B with a
0.5 percent slippage tolerance. -/
def sampleTradeIn : Trade :=
  { tradeType := TradeType.EXACT_INPUT
    inputAmount := { currency := sampleTokenA, quotient := 1000 }
    outputAmount := { currency := sampleTokenB, quotient := 2000 }
    slippageTolerance := 1/2
    quote := some sampleQuote
    executionPrice := samplePrice }

/-- A sample exact-output trade, the mirror image of sampleTradeIn. -/
def sampleTradeOut : Trade :=
  { tradeType := TradeType.EXACT_OUTPUT
    inputAmount := { currency := sampleTokenA, quotient := 1000 }
    outputAmount := { currency := sampleTokenB, quotient := 2000 }
    slippageTolerance := 1/2
    quote := some sampleQuote
    executionPrice := samplePrice }

/-- The record tradeToTransactionInfo produces for sampleTradeIn:
50 basis points of slippage leaves a minimum output of
2000 * 10000 / 10050 = 1990. -/
def sampleInfoInRec : ExactInputSwapTransactionInfo :=
  { type := TransactionType.Swap
    inputCurrencyId := "1-0xAaAa000000000000000000000000000000000001"
    outputCurrencyId := "1-0xBbBb000000000000000000000000000000000002"
    tradeType := TradeType.EXACT_INPUT
    inputCurrencyAmountRaw := "1000"
    expectedOutputCurrencyAmountRaw := "2000"
    minimumOutputCurrencyAmountRaw := "1990" }

/-- The sum variant of sampleInfoInRec. -/
def sampleInfoIn : SwapTransactionInfo := SwapTransactionInfo.exactInput sampleInfoInRec

/-- The record tradeToTransactionInfo produces for sampleTradeOut:
50 basis points of slippage allows a maximum input of
1000 * 10050 / 10000 = 1005. -/
def sampleInfoOutRec : ExactOutputSwapTransactionInfo :=
  { type := TransactionType.Swap
    inputCurrencyId := "1-0xAaAa000000000000000000000000000000000001"
    outputCurrencyId := "1-0xBbBb000000000000000000000000000000000002"
    tradeType := TradeType.EXACT_OUTPUT
    outputCurrencyAmountRaw := "2000"
    expectedInputCurrencyAmountRaw := "1000"
    maximumInputCurrencyAmountRaw := "1005" }

/-- The sum variant of sampleInfoOutRec. -/
def sampleInfoOut : SwapTransactionInfo := SwapTransactionInfo.exactOutput sampleInfoOutRec

/-! Reduction lemmas restating definitions on constructor-shaped inputs. -/

theorem getWrapType_some_some (W : ℕ → Currency) (i o : Currency) :
    getWrapType W (some i) (some o) =
      if i.chainId = o.chainId then
        if i.isNative && areCurrencyIdsEqual (currencyId o) (currencyId (W i.chainId)) then
          WrapType.Wrap
        else if o.isNative && areCurrencyIdsEqual (currencyId i) (currencyId (W i.chainId)) then
          WrapType.Unwrap
        else WrapType.NotApplicable
      else WrapType.NotApplicable := rfl

theorem getWrapType_none_left (W : ℕ → Currency) (o : Option Currency) :
    getWrapType W none o = WrapType.NotApplicable := by
  cases o <;> rfl

theorem getWrapType_none_right (W : ℕ → Currency) (i : Option Currency) :
    getWrapType W i none = WrapType.NotApplicable := by
  cases i <;> rfl

theorem clearStaleTrades_eq_ite (t : Trade) (cin cout : Option Currency) :
    clearStaleTrades t cin cout =
      if (!(jsFalsyStr (cin.map Currency.wrappedAddress)) &&
            areAddressesEqual ((cin.map Currency.wrappedAddress).getD "")
              t.inputAmount.currency.wrappedAddress) &&
         (!(jsFalsyStr (cout.map Currency.wrappedAddress)) &&
            areAddressesEqual ((cout.map Currency.wrappedAddress).getD "")
              t.outputAmount.currency.wrappedAddress) then some t
      else none := rfl

/-! Claim theorems. -/

/-- C3: slippageToleranceToPercent converts a slippage value to the
percent round(slippage * 100) / 10000, where round is nearest-integer
rounding with halves rounded up; in particular 0.5 maps to 50 / 10000. -/
theorem c3_slippageToleranceToPercent_rounds_to_basis_points (s : ℚ) (n : ℤ) :
    (slippageToleranceToPercent s).den = 10000 ∧
    ((slippageToleranceToPercent s).num = n ↔
      ((n : ℚ) - 1/2 ≤ s * 100 ∧ s * 100 < (n : ℚ) + 1/2)) ∧
    slippageToleranceToPercent (1/2) = { num := 50, den := 10000 } := by
  refine ⟨rfl, ?_, by unfold slippageToleranceToPercent jsRound; norm_num⟩
  show jsRound (s * 100) = n ↔ _
  unfold jsRound
  rw [Int.floor_eq_iff]
  constructor <;> intro h <;> exact ⟨by linarith [h.1], by linarith [h.2]⟩

/-- C1: tradeToTransactionInfo bounds the slippage-adjusted amount by
the expected amount: for an exact-input trade the minimum output is at
most the expected output, and for an exact-output trade the maximum
input is at least the expected input, comparing the integer values the
decimal strings represent. -/
theorem c1_tradeToTransactionInfo_slippage_bounds (t : Trade)
    (info : SwapTransactionInfo) (h : tradeToTransactionInfo t = some info) :
    (t.tradeType = TradeType.EXACT_INPUT →
      ∃ r m e, info = SwapTransactionInfo.exactInput r ∧
        r.minimumOutputCurrencyAmountRaw = Nat.repr m ∧
        r.expectedOutputCurrencyAmountRaw = Nat.repr e ∧ m ≤ e) ∧
    (t.tradeType = TradeType.EXACT_OUTPUT →
      ∃ r m e, info = SwapTransactionInfo.exactOutput r ∧
        r.maximumInputCurrencyAmountRaw = Nat.repr m ∧
        r.expectedInputCurrencyAmountRaw = Nat.repr e ∧ e ≤ m) := by
  constructor
  · intro ht
    by_cases hneg : (slippageToleranceToPercent t.slippageTolerance).num < 0
    · exfalso
      simp [tradeToTransactionInfo, Trade.minimumAmountOut, ht, hneg] at h
    · have hmin : t.minimumAmountOut (slippageToleranceToPercent t.slippageTolerance) =
          some (t.outputAmount.quotient * 10000 /
            (10000 + (slippageToleranceToPercent t.slippageTolerance).num.toNat)) := by
        simp [Trade.minimumAmountOut, ht, hneg]
        rfl
      simp [tradeToTransactionInfo, ht, hmin] at h
      subst h
      exact ⟨_, t.outputAmount.quotient * 10000 /
          (10000 + (slippageToleranceToPercent t.slippageTolerance).num.toNat),
        t.outputAmount.quotient, rfl, rfl, rfl,
        natDiv_den_le t.outputAmount.quotient 10000 _ (by norm_num)⟩
  · intro ht
    by_cases hneg : (slippageToleranceToPercent t.slippageTolerance).num < 0
    · exfalso
      simp [tradeToTransactionInfo, Trade.maximumAmountIn, ht, hneg] at h
    · have hmax : t.maximumAmountIn (slippageToleranceToPercent t.slippageTolerance) =
          some (t.inputAmount.quotient *
            (10000 + (slippageToleranceToPercent t.slippageTolerance).num.toNat) / 10000) := by
        simp [Trade.maximumAmountIn, ht, hneg]
        rfl
      simp [tradeToTransactionInfo, ht, hmax] at h
      subst h
      exact ⟨_, t.inputAmount.quotient *
          (10000 + (slippageToleranceToPercent t.slippageTolerance).num.toNat) / 10000,
        t.inputAmount.quotient, rfl, rfl, rfl,
        natLe_mul_den_div t.inputAmount.quotient 10000 _ (by norm_num)⟩

/-- C4: tradeToTransactionInfo tags its record with the trade's own
trade type, and every numeric amount field is the exact decimal-string
representation of the corresponding underlying integer amount. -/
theorem c4_tradeToTransactionInfo_exact_fields (t : Trade)
    (info : SwapTransactionInfo) (h : tradeToTransactionInfo t = some info) :
    (∀ r, info = SwapTransactionInfo.exactInput r →
        t.tradeType = TradeType.EXACT_INPUT ∧
        r.tradeType = t.tradeType ∧
        r.type = TransactionType.Swap ∧
        r.inputCurrencyAmountRaw = Nat.repr t.inputAmount.quotient ∧
        r.expectedOutputCurrencyAmountRaw = Nat.repr t.outputAmount.quotient ∧
        ∃ m, t.minimumAmountOut (slippageToleranceToPercent t.slippageTolerance) = some m ∧
          r.minimumOutputCurrencyAmountRaw = Nat.repr m) ∧
    (∀ r, info = SwapTransactionInfo.exactOutput r →
        t.tradeType = TradeType.EXACT_OUTPUT ∧
        r.tradeType = t.tradeType ∧
        r.type = TransactionType.Swap ∧
        r.outputCurrencyAmountRaw = Nat.repr t.outputAmount.quotient ∧
        r.expectedInputCurrencyAmountRaw = Nat.repr t.inputAmount.quotient ∧
        ∃ m, t.maximumAmountIn (slippageToleranceToPercent t.slippageTolerance) = some m ∧
          r.maximumInputCurrencyAmountRaw = Nat.repr m) := by
  constructor
  · intro r hr
    rw [hr] at h
    cases ht : t.tradeType with
    | EXACT_OUTPUT =>
      exfalso
      by_cases hneg : (slippageToleranceToPercent t.slippageTolerance).num < 0
      · simp [tradeToTransactionInfo, Trade.maximumAmountIn, ht, hneg] at h
      · have hmax : t.maximumAmountIn (slippageToleranceToPercent t.slippageTolerance) =
            some (t.inputAmount.quotient *
              (10000 + (slippageToleranceToPercent t.slippageTolerance).num.toNat) / 10000) := by
          simp [Trade.maximumAmountIn, ht, hneg]
          rfl
        simp [tradeToTransactionInfo, ht, hmax] at h
    | EXACT_INPUT =>
      by_cases hneg : (slippageToleranceToPercent t.slippageTolerance).num < 0
      · exfalso
        simp [tradeToTransactionInfo, Trade.minimumAmountOut, ht, hneg] at h
      · have hmin : t.minimumAmountOut (slippageToleranceToPercent t.slippageTolerance) =
            some (t.outputAmount.quotient * 10000 /
              (10000 + (slippageToleranceToPercent t.slippageTolerance).num.toNat)) := by
          simp [Trade.minimumAmountOut, ht, hneg]
          rfl
        simp [tradeToTransactionInfo, ht, hmin] at h
        subst h
        exact ⟨rfl, rfl, rfl, rfl, rfl,
          t.outputAmount.quotient * 10000 /
            (10000 + (slippageToleranceToPercent t.slippageTolerance).num.toNat), hmin, rfl⟩
  · intro r hr
    rw [hr] at h
    cases ht : t.tradeType with
    | EXACT_INPUT =>
      exfalso
      by_cases hneg : (slippageToleranceToPercent t.slippageTolerance).num < 0
      · simp [tradeToTransactionInfo, Trade.minimumAmountOut, ht, hneg] at h
      · have hmin : t.minimumAmountOut (slippageToleranceToPercent t.slippageTolerance) =
            some (t.outputAmount.quotient * 10000 /
              (10000 + (slippageToleranceToPercent t.slippageTolerance).num.toNat)) := by
          simp [Trade.minimumAmountOut, ht, hneg]
          rfl
        simp [tradeToTransactionInfo, ht, hmin] at h
    | EXACT_OUTPUT =>
      by_cases hneg : (slippageToleranceToPercent t.slippageTolerance).num < 0
      · exfalso
        simp [tradeToTransactionInfo, Trade.maximumAmountIn, ht, hneg] at h
      · have hmax : t.maximumAmountIn (slippageToleranceToPercent t.slippageTolerance) =
            some (t.inputAmount.quotient *
              (10000 + (slippageToleranceToPercent t.slippageTolerance).num.toNat) / 10000) := by
          simp [Trade.maximumAmountIn, ht, hneg]
          rfl
        simp [tradeToTransactionInfo, ht, hmax] at h
        subst h
        exact ⟨rfl, rfl, rfl, rfl, rfl,
          t.inputAmount.quotient *
            (10000 + (slippageToleranceToPercent t.slippageTolerance).num.toNat) / 10000, hmax, rfl⟩

/-- C2: getWrapType returns NotApplicable unless both currencies are
present, share a chain id, and one is the native asset while the other
is that chain's canonical wrapped-native token; native input against the
wrapped-native output gives Wrap, and native output against the
wrapped-native input gives Unwrap.  The hypothesis states the modelled
well-formedness of the wrapped-native map: on the input's chain the
wrapped token's identifier differs from the native identifier. -/
theorem c2_getWrapType_classification (W : ℕ → Currency) (i o : Option Currency)
    (hne : ∀ ci, i = some ci →
      areCurrencyIdsEqual (Nat.repr ci.chainId ++ "-" ++ NATIVE_ADDRESS)
        (currencyId (W ci.chainId)) = false) :
    (getWrapType W i o ≠ WrapType.NotApplicable →
      ∃ ci co, i = some ci ∧ o = some co ∧ ci.chainId = co.chainId ∧
        ((ci.isNative = true ∧
            areCurrencyIdsEqual (currencyId co) (currencyId (W ci.chainId)) = true) ∨
         (co.isNative = true ∧
            areCurrencyIdsEqual (currencyId ci) (currencyId (W ci.chainId)) = true))) ∧
    (∀ ci co, i = some ci → o = some co → ci.chainId = co.chainId →
      ci.isNative = true →
      areCurrencyIdsEqual (currencyId co) (currencyId (W ci.chainId)) = true →
      getWrapType W i o = WrapType.Wrap) ∧
    (∀ ci co, i = some ci → o = some co → ci.chainId = co.chainId →
      co.isNative = true →
      areCurrencyIdsEqual (currencyId ci) (currencyId (W ci.chainId)) = true →
      getWrapType W i o = WrapType.Unwrap) := by
  refine ⟨?_, ?_, ?_⟩
  · intro hna
    match i, o with
    | none, o => rw [getWrapType_none_left] at hna; exact absurd rfl hna
    | some ci, none => rw [getWrapType_none_right] at hna; exact absurd rfl hna
    | some ci, some co =>
      rw [getWrapType_some_some] at hna
      by_cases hch : ci.chainId = co.chainId
      · rw [if_pos hch] at hna
        by_cases h1 : (ci.isNative &&
            areCurrencyIdsEqual (currencyId co) (currencyId (W ci.chainId))) = true
        · rw [Bool.and_eq_true] at h1
          exact ⟨ci, co, rfl, rfl, hch, Or.inl ⟨h1.1, h1.2⟩⟩
        · rw [if_neg h1] at hna
          by_cases h2 : (co.isNative &&
              areCurrencyIdsEqual (currencyId ci) (currencyId (W ci.chainId))) = true
          · rw [Bool.and_eq_true] at h2
            exact ⟨ci, co, rfl, rfl, hch, Or.inr ⟨h2.1, h2.2⟩⟩
          · rw [if_neg h2] at hna
            exact absurd rfl hna
      · rw [if_neg hch] at hna
        exact absurd rfl hna
  · intro ci co hi ho hch hnat hid
    subst hi
    subst ho
    rw [getWrapType_some_some, if_pos hch,
      if_pos (by rw [Bool.and_eq_true]; exact ⟨hnat, hid⟩)]
  · intro ci co hi ho hch hnat hid
    subst hi
    subst ho
    have hwrapFalse : (ci.isNative &&
        areCurrencyIdsEqual (currencyId co) (currencyId (W ci.chainId))) ≠ true := by
      cases hcin : ci.isNative with
      | false => simp
      | true =>
        have hid2 : currencyId ci = Nat.repr ci.chainId ++ "-" ++ NATIVE_ADDRESS := by
          simp [currencyId, currencyAddress, hcin]
        have hfalse := hne ci rfl
        rw [← hid2, hid] at hfalse
        exact absurd hfalse (by decide)
    rw [getWrapType_some_some, if_pos hch, if_neg hwrapFalse,
      if_pos (by rw [Bool.and_eq_true]; exact ⟨hnat, hid⟩)]

/-- C9: getRateToDisplay formats the execution price inverted exactly
when the boolean is true, and the returned string 1 X = Y Z orders the
symbols consistently with the orientation of the price it formatted. -/
theorem c9_getRateToDisplay_orientation (t : Trade) (b : Bool) :
    getRateToDisplay t b =
      rateString (if b then t.executionPrice.invert else t.executionPrice) := by
  cases b <;> rfl

/-- C7: requireAcceptNewTrade returns true exactly when the two trades
have different underlying quote calldata, and false when the calldata
agree, including when both are absent. -/
theorem c7_requireAcceptNewTrade_iff_calldata_differs (o n : Option Trade) :
    (requireAcceptNewTrade o n = true ↔ tradeCalldata o ≠ tradeCalldata n) ∧
    (requireAcceptNewTrade o n = false ↔ tradeCalldata o = tradeCalldata n) ∧
    requireAcceptNewTrade none none = false := by
  unfold requireAcceptNewTrade
  refine ⟨bne_iff_ne, ?_, rfl⟩
  rw [← Bool.not_eq_true, bne_iff_ne]
  exact not_ne_iff

/-- C5: sumGasFees adds two present decimal-integer strings exactly,
returns the present argument unchanged when exactly one is present, and
returns the absent value when neither is present; in particular
100 + 200 gives 300 and an absent first argument returns the second. -/
theorem c5_sumGasFees_exact_sum (s1 s2 : String)
    (h1 : isDecimalString s1 = true) (h2 : isDecimalString s2 = true) :
    sumGasFees (some s1) (some s2) =
      Except.ok (some (Nat.repr (decDigitsVal s1 + decDigitsVal s2))) ∧
    sumGasFees (some s1) none = Except.ok (some s1) ∧
    sumGasFees none (some s2) = Except.ok (some s2) ∧
    sumGasFees none none = Except.ok none ∧
    sumGasFees (some "100") (some "200") = Except.ok (some "300") ∧
    sumGasFees none (some "200") = Except.ok (some "200") := by
  have f1 : (s1 == "") = false := decimalString_beq_empty_false s1 h1
  have f2 : (s2 == "") = false := decimalString_beq_empty_false s2 h2
  refine ⟨?_, ?_, ?_, rfl, rfl, rfl⟩
  · simp [sumGasFees, jsFalsyStr, f1, f2, h1, h2]
  · simp [sumGasFees, jsFalsyStr, jsOrStr, f1]
  · simp [sumGasFees, jsFalsyStr, jsOrStr]

/-- C6: clearStaleTrades returns the trade unchanged exactly when both
selected currencies are present and their wrapped addresses match the
trade's own currencies' wrapped addresses case-insensitively, and
returns none otherwise.  The hypotheses state that a present selected
currency has a nonempty wrapped address, as every valid token address
is. -/
theorem c6_clearStaleTrades_match (t : Trade) (cin cout : Option Currency)
    (hin : ∀ c, cin = some c → c.wrappedAddress ≠ "")
    (hout : ∀ c, cout = some c → c.wrappedAddress ≠ "") :
    (clearStaleTrades t cin cout = some t ↔
      ∃ ci co, cin = some ci ∧ cout = some co ∧
        areAddressesEqual ci.wrappedAddress t.inputAmount.currency.wrappedAddress = true ∧
        areAddressesEqual co.wrappedAddress t.outputAmount.currency.wrappedAddress = true) ∧
    (clearStaleTrades t cin cout = none ↔
      ¬ ∃ ci co, cin = some ci ∧ cout = some co ∧
        areAddressesEqual ci.wrappedAddress t.inputAmount.currency.wrappedAddress = true ∧
        areAddressesEqual co.wrappedAddress t.outputAmount.currency.wrappedAddress = true) := by
  match cin, cout with
  | none, cout =>
    rw [clearStaleTrades_eq_ite]
    simp [jsFalsyStr]
  | some a, none =>
    rw [clearStaleTrades_eq_ite]
    simp [jsFalsyStr]
  | some a, some b =>
    have fa : (a.wrappedAddress == "") = false := by
      rw [beq_eq_false_iff_ne]; exact hin a rfl
    have fb : (b.wrappedAddress == "") = false := by
      rw [beq_eq_false_iff_ne]; exact hout b rfl
    rw [clearStaleTrades_eq_ite]
    cases g1 : areAddressesEqual a.wrappedAddress t.inputAmount.currency.wrappedAddress <;>
      cases g2 : areAddressesEqual b.wrappedAddress t.outputAmount.currency.wrappedAddress <;>
        simp [jsFalsyStr, fa, fb, g1, g2]

/-- C8: getSwapMethodParameters delegates to the universal-router SDK
exactly when the feature flag is set or a permit2 signature is present,
passing the permit2 signature in the options when present, and otherwise
delegates to the legacy router SDK, passing the raw permit exactly when
permitInfo is provided. -/
theorem c8_getSwapMethodParameters_selection (args : MethodParameterArgs) :
    getSwapMethodParameters args =
      (if args.universalRouterEnabled || args.permit2Signature.isSome then
        RouterCall.universal args.trade
          { base := { slippageTolerance := slippageToleranceToPercent args.trade.slippageTolerance
                      recipient := args.address }
            inputTokenPermit := args.permit2Signature.map
              fun p2 => { signature := p2.signature, message := p2.permitMessage } }
      else
        RouterCall.legacy args.trade
          { base := { slippageTolerance := slippageToleranceToPercent args.trade.slippageTolerance
                      recipient := args.address }
            inputTokenPermit := args.permitInfo }) ∧
    ((∃ opts, getSwapMethodParameters args = RouterCall.universal args.trade opts) ↔
      (args.universalRouterEnabled = true ∨ args.permit2Signature.isSome = true)) := by
  obtain ⟨p2, pinfo, tr, addr, flag⟩ := args
  constructor
  · cases p2 <;> cases flag <;> cases pinfo <;> rfl
  · cases p2 <;> cases flag <;> simp [getSwapMethodParameters]

/-- C10: sumGasFees treats the empty string as absent: with one argument
empty the other is returned unchanged with no arithmetic performed, and
two empty strings produce the empty string, a present value. -/
theorem c10_sumGasFees_empty_string_is_falsy (s : String) :
    sumGasFees (some "") (some s) = Except.ok (some s) ∧
    sumGasFees (some s) (some "") = Except.ok (some s) ∧
    sumGasFees (some "") (some "") = Except.ok (some "") := by
  by_cases hs : s = "" <;>
    simp [sumGasFees, jsFalsyStr, jsOrStr, hs]

/-! Witness theorems: the claim theorems applied at concrete inputs. -/

/-- Witness for C1 at sampleTradeIn: the produced minimum output 1990 is
at most the expected output 2000. -/
theorem c1_tradeToTransactionInfo_slippage_bounds_witness :
    ∃ r m e, sampleInfoIn = SwapTransactionInfo.exactInput r ∧
      r.minimumOutputCurrencyAmountRaw = Nat.repr m ∧
      r.expectedOutputCurrencyAmountRaw = Nat.repr e ∧ m ≤ e := by
  have hp : slippageToleranceToPercent ((1:ℚ)/2) = { num := 50, den := 10000 } := by
    unfold slippageToleranceToPercent jsRound
    norm_num
  have hs : sampleTradeIn.slippageTolerance = (1:ℚ)/2 := rfl
  have hEq : tradeToTransactionInfo sampleTradeIn = some sampleInfoIn := by
    unfold tradeToTransactionInfo
    rw [hs, hp]
    rfl
  exact (c1_tradeToTransactionInfo_slippage_bounds sampleTradeIn sampleInfoIn hEq).1 rfl

/-- Witness for C2 at the sample wrapped-native map: wrapping the native
asset of chain 1 into the sample WETH classifies as Wrap. -/
theorem c2_getWrapType_classification_witness :
    getWrapType sampleWethMap (some sampleNative) (some sampleWeth) = WrapType.Wrap := by
  have h := c2_getWrapType_classification sampleWethMap (some sampleNative) (some sampleWeth)
    (by intro ci hci; injection hci with h2; subst h2; decide)
  exact h.2.1 sampleNative sampleWeth rfl rfl rfl rfl (by decide)

/-- Witness for C4 at sampleTradeOut: the exact-output record carries
the trade type and the decimal strings of the underlying amounts. -/
theorem c4_tradeToTransactionInfo_exact_fields_witness :
    sampleTradeOut.tradeType = TradeType.EXACT_OUTPUT ∧
    sampleInfoOutRec.tradeType = sampleTradeOut.tradeType ∧
    sampleInfoOutRec.type = TransactionType.Swap ∧
    sampleInfoOutRec.outputCurrencyAmountRaw = Nat.repr sampleTradeOut.outputAmount.quotient ∧
    sampleInfoOutRec.expectedInputCurrencyAmountRaw = Nat.repr sampleTradeOut.inputAmount.quotient ∧
    ∃ m, sampleTradeOut.maximumAmountIn
        (slippageToleranceToPercent sampleTradeOut.slippageTolerance) = some m ∧
      sampleInfoOutRec.maximumInputCurrencyAmountRaw = Nat.repr m := by
  have hp : slippageToleranceToPercent ((1:ℚ)/2) = { num := 50, den := 10000 } := by
    unfold slippageToleranceToPercent jsRound
    norm_num
  have hs : sampleTradeOut.slippageTolerance = (1:ℚ)/2 := rfl
  have hEq : tradeToTransactionInfo sampleTradeOut = some sampleInfoOut := by
    unfold tradeToTransactionInfo
    rw [hs, hp]
    rfl
  exact (c4_tradeToTransactionInfo_exact_fields sampleTradeOut sampleInfoOut hEq).2
    sampleInfoOutRec rfl

/-- Witness for C5 at the concrete gas fees 100 and 200. -/
theorem c5_sumGasFees_exact_sum_witness :
    isDecimalString "100" = true ∧ isDecimalString "200" = true ∧
    sumGasFees (some "100") (some "200") = Except.ok (some "300") := by
  refine ⟨by decide, by decide, ?_⟩
  exact (c5_sumGasFees_exact_sum "100" "200" (by decide) (by decide)).2.2.2.2.1

/-- Witness for C6 at a trade whose currencies match the selection: the
trade is kept. -/
theorem c6_clearStaleTrades_match_witness :
    clearStaleTrades sampleTradeIn (some sampleTokenA) (some sampleTokenB) =
      some sampleTradeIn := by
  have h := c6_clearStaleTrades_match sampleTradeIn (some sampleTokenA) (some sampleTokenB)
    (by intro c hc; injection hc with h2; subst h2; decide)
    (by intro c hc; injection hc with h2; subst h2; decide)
  exact h.1.mpr ⟨sampleTokenA, sampleTokenB, rfl, rfl, by decide, by decide⟩

end SwapUtils
